import Mathlib

/-!
Verification of the rigid-body simulator (`LocalRigidBodies.cpp`, `quaternion.h`).

Real-number scalars of the C code (`double`) are modelled by exact arithmetic
(`ℚ`, or abstract types where only data flow matters).  The `System`,
`Body` and integrator translation units are not among the sources; where a
claim touches them, their operations are either universally quantified
(opaque state transformers) or, where the direction of a data copy matters,
modelled from the spec, as noted in the doc comments.
-/

namespace RigidBodies

/-! ## Math kernel: quaternions (`quaternion.h`) -/

/-- A quaternion, `quaternion.h` lines 40-131.  The four `double` components
are modelled as rationals. -/
structure Quaternion where
  w : ℚ
  x : ℚ
  y : ℚ
  z : ℚ
deriving DecidableEq

/-- `norm`, `quaternion.h` lines 133-135:
`return q.x * q.x + q.y * q.y + q.z * q.z + q.w * q.w`. -/
def norm (q : Quaternion) : ℚ :=
  q.x * q.x + q.y * q.y + q.z * q.z + q.w * q.w

/-- C10: `norm(q)` returns `w² + x² + y² + z²`, the squared magnitude of `q`
(and not the Euclidean magnitude, from which it differs e.g. at
`q = (2,0,0,0)`); consequently `q` is a unit quaternion (Euclidean magnitude
`1`) if and only if `norm q = 1`. -/
theorem C10_norm_squared_magnitude :
    (∀ q : Quaternion, norm q = q.w ^ 2 + q.x ^ 2 + q.y ^ 2 + q.z ^ 2)
    ∧ (∀ q : Quaternion, Real.sqrt ((norm q : ℚ) : ℝ) = 1 ↔ norm q = 1)
    ∧ ((norm (Quaternion.mk 2 0 0 0) : ℚ) : ℝ)
        ≠ Real.sqrt ((norm (Quaternion.mk 2 0 0 0) : ℚ) : ℝ) := by
  refine ⟨fun q => by simp [norm]; ring, fun q => ?_, ?_⟩
  · rw [Real.sqrt_eq_one]
    exact_mod_cast Iff.rfl
  · have hn : norm (Quaternion.mk 2 0 0 0) = 4 := by norm_num [norm]
    rw [hn]
    have h4 : ((4 : ℚ) : ℝ) = 4 := by norm_num
    rw [h4]
    have : Real.sqrt 4 = 2 := by
      rw [show (4 : ℝ) = 2 ^ 2 by norm_num, Real.sqrt_sq (by norm_num)]
    rw [this]
    norm_num

/-! ## Scene selection (`init_system`, `main`) -/

/-- The eight built-in scene builders of `LocalRigidBodies.cpp`
(lines 92-265), by name. -/
inductive Scene where
  | single_box
  | slide
  | small_pile
  | high_pile
  | big_pile
  | stack
  | combo
  | tall_stack
deriving DecidableEq

/-- `init_system(int i)`, `LocalRigidBodies.cpp` lines 267-302: the `switch`
selecting which scene builder runs (`default` falls back to
`init_small_pile`). -/
def init_system (i : ℤ) : Scene :=
  if i = 0 then .single_box
  else if i = 1 then .slide
  else if i = 2 then .small_pile
  else if i = 3 then .high_pile
  else if i = 4 then .big_pile
  else if i = 5 then .stack
  else if i = 6 then .combo
  else if i = 7 then .tall_stack
  else .small_pile

/-- `main`, `LocalRigidBodies.cpp` lines 808-815: with an argument present,
`init_system(atoi(argv[1]))` runs; without one, `init_system(-1)`.  The
argument is modelled by its integer value (the result of `atoi`). -/
def main_scene : Option ℤ → Scene
  | some a => init_system a
  | none => init_system (-1)

/-- The table associating each in-range index with its built-in scene, in the
order of the `switch` cases. -/
def builtin_scenes : List Scene :=
  [.single_box, .slide, .small_pile, .high_pile, .big_pile, .stack, .combo, .tall_stack]

/-- C7: an argument whose integer value lies in `0..7` selects the built-in
scene with that index; an absent argument, or one outside `0..7`, falls back
to the default small-pile scene. -/
theorem C7_scene_selection :
    (∀ i : ℤ, 0 ≤ i → i ≤ 7 → builtin_scenes[i.toNat]? = some (main_scene (some i)))
    ∧ main_scene none = Scene.small_pile
    ∧ (∀ i : ℤ, i < 0 ∨ 7 < i → main_scene (some i) = Scene.small_pile) := by
  refine ⟨fun i h0 h7 => ?_, by decide, fun i h => ?_⟩
  · interval_cases i <;> rfl
  · simp only [main_scene, init_system]
    split_ifs <;> first | rfl | (exfalso; omega)

/-- Witness for C7 at the concrete inputs `5`, `none` and `99`. -/
theorem C7_scene_selection_witness :
    builtin_scenes[(5 : ℤ).toNat]? = some (main_scene (some 5))
    ∧ main_scene (some 99) = Scene.small_pile :=
  ⟨C7_scene_selection.1 5 (by decide) (by decide),
   C7_scene_selection.2.2 99 (Or.inr (by decide))⟩

/-! ## The per-tick random shuffle (`idle_func`, lines 588-599)

The body array `sys->bVector` is modelled as a function `Fin n → B`, with
`B` abstracting `Body*` entries and `invm : B → Q` reading a body's
`inv_mass` field (`Q` abstracts the `float` scalar; only `0 < _` is used). -/

/-- One iteration of the shuffle loop, lines 591-598: with `jj` and `kk`
already reduced `mod n`, the two entries are swapped only when both have
`inv_mass > 0`. -/
def shuffle_step {B Q : Type} [Zero Q] [LinearOrder Q] (invm : B → Q) {n : ℕ}
    (arr : Fin n → B) (jj kk : Fin n) : Fin n → B :=
  if 0 < invm (arr jj) ∧ 0 < invm (arr kk) then arr ∘ (Equiv.swap jj kk) else arr

/-- Number of iterations of the shuffle loop, line 589: `ii < 15`. -/
def shuffle_attempts : ℕ := 15

/-- The whole shuffle, lines 589-599.  `rnd` is the stream of `rand()`
results; iteration `ii` consumes `rnd (2*ii)` for `jj` and `rnd (2*ii+1)`
for `kk`, each reduced modulo `num_bodies`. -/
def shuffle_bodies {B Q : Type} [Zero Q] [LinearOrder Q] (invm : B → Q) {n : ℕ} (hn : 0 < n)
    (arr : Fin n → B) (rnd : ℕ → ℕ) : Fin n → B :=
  (List.range shuffle_attempts).foldl
    (fun a ii =>
      shuffle_step invm a ⟨rnd (2 * ii) % n, Nat.mod_lt _ hn⟩
        ⟨rnd (2 * ii + 1) % n, Nat.mod_lt _ hn⟩)
    arr

/-- Folding `shuffle_step` over any list of index pairs yields a permutation
of the original array. -/
theorem shuffle_fold_perm {B Q : Type} [Zero Q] [LinearOrder Q] (invm : B → Q) {n : ℕ} :
    ∀ (l : List (Fin n × Fin n)) (a : Fin n → B),
      ∃ σ : Equiv.Perm (Fin n),
        l.foldl (fun a pr => shuffle_step invm a pr.1 pr.2) a = a ∘ σ := by
  intro l
  induction l with
  | nil =>
      intro a
      exact ⟨Equiv.refl _, rfl⟩
  | cons pr l ih =>
      intro a
      rw [List.foldl_cons]
      obtain ⟨σ, hσ⟩ := ih (shuffle_step invm a pr.1 pr.2)
      unfold shuffle_step at *
      by_cases h : 0 < invm (a pr.1) ∧ 0 < invm (a pr.2)
      · rw [if_pos h] at hσ
        refine ⟨σ.trans (Equiv.swap pr.1 pr.2), ?_⟩
        rw [if_pos h, hσ]
        rfl
      · rw [if_neg h] at hσ
        refine ⟨σ, ?_⟩
        rw [if_neg h, hσ]

/-- Folding `shuffle_step` over any list of index pairs never changes a slot
that initially holds a body with `inv_mass = 0`. -/
theorem shuffle_fold_fixed {B Q : Type} [Zero Q] [LinearOrder Q] (invm : B → Q) {n : ℕ} (arr0 : Fin n → B) :
    ∀ (l : List (Fin n × Fin n)) (a : Fin n → B),
      (∀ p, invm (arr0 p) = 0 → a p = arr0 p) →
      ∀ p, invm (arr0 p) = 0 →
        (l.foldl (fun a pr => shuffle_step invm a pr.1 pr.2) a) p = arr0 p := by
  intro l
  induction l with
  | nil => intro a h p hp; exact h p hp
  | cons pr l ih =>
      intro a h p hp
      rw [List.foldl_cons]
      refine ih _ ?_ p hp
      intro q hq
      unfold shuffle_step
      by_cases hc : 0 < invm (a pr.1) ∧ 0 < invm (a pr.2)
      · rw [if_pos hc]
        by_cases h1 : q = pr.1
        · exfalso
          have := h q hq
          rw [h1] at this hq
          rw [this] at hc
          exact absurd hq (ne_of_gt hc.1)
        · by_cases h2 : q = pr.2
          · exfalso
            have := h q hq
            rw [h2] at this hq
            rw [this] at hc
            exact absurd hq (ne_of_gt hc.2)
          · show a (Equiv.swap pr.1 pr.2 q) = arr0 q
            rw [Equiv.swap_apply_of_ne_of_ne h1 h2]
            exact h q hq
      · rw [if_neg hc]
        exact h q hq

/-- C5: the shuffle performs exactly 15 swap attempts; a swap happens only
when both chosen bodies have `inv_mass > 0`; consequently a slot holding a
body with `inv_mass = 0` is unchanged, and the resulting array is a
permutation of the original. -/
theorem C5_shuffle {B Q : Type} [Zero Q] [LinearOrder Q] (invm : B → Q) {n : ℕ} (hn : 0 < n)
    (arr : Fin n → B) (rnd : ℕ → ℕ) :
    shuffle_attempts = 15
    ∧ (∀ (a : Fin n → B) (jj kk : Fin n),
        ¬(0 < invm (a jj) ∧ 0 < invm (a kk)) → shuffle_step invm a jj kk = a)
    ∧ (∃ σ : Equiv.Perm (Fin n), shuffle_bodies invm hn arr rnd = arr ∘ σ)
    ∧ (∀ p, invm (arr p) = 0 → shuffle_bodies invm hn arr rnd p = arr p) := by
  have hmap :
      shuffle_bodies invm hn arr rnd =
        ((List.range shuffle_attempts).map
            (fun ii => ((⟨rnd (2 * ii) % n, Nat.mod_lt _ hn⟩ : Fin n),
              (⟨rnd (2 * ii + 1) % n, Nat.mod_lt _ hn⟩ : Fin n)))).foldl
          (fun a pr => shuffle_step invm a pr.1 pr.2) arr := by
    rw [List.foldl_map]
    rfl
  refine ⟨rfl, fun a jj kk h => by simp [shuffle_step, h], ?_, ?_⟩
  · rw [hmap]
    exact shuffle_fold_perm invm _ arr
  · intro p hp
    rw [hmap]
    exact shuffle_fold_fixed invm arr _ arr (fun _ _ => rfl) p hp

/-- Witness for C5 with two bodies (`inv_mass` values `0` and `1` over `ℤ`),
slot `0` holding the immovable body. -/
theorem C5_shuffle_witness :
    shuffle_bodies (fun q : ℤ => q) (by decide : 0 < 2) ![0, 1] (fun i => i)
        ⟨0, by decide⟩ = ![0, 1] ⟨0, by decide⟩ :=
  (C5_shuffle (fun q : ℤ => q) (by decide) ![0, 1] (fun i => i)).2.2.2
    ⟨0, by decide⟩ (by decide)

/-! ## The per-tick pipeline (`idle_func`, lines 566-691)

The world state (bodies plus the `prev_pos`/`prev_vel` scratch buffers) is an
abstract type `σ`; each `System`/integrator call appearing in `idle_func` is
an opaque state transformer in `SysOps` (their bodies live in translation
units that are not among the sources, so all claims below are proved for
every possible behaviour of these operations).  `idle_func` is embedded as a
function that also emits one `Event` per operation, in execution order, and
reports the loop counters. -/

/-- Loop bound, `#define MAX_COLLISIONS 5` (line 22). -/
def MAX_COLLISIONS : ℕ := 5

/-- Loop bound, `#define MAX_CONTACTS 10` (line 23). -/
def MAX_CONTACTS : ℕ := 10

/-- Loop bound, `#define MAX_SHOCK_PROP 1` (line 24). -/
def MAX_SHOCK_PROP : ℕ := 1

/-- One event per operation performed by `idle_func`, in execution order.
Detection events record the returned flag; `contact_detect` also records its
`count` and `shock` arguments. -/
inductive Event where
  | shuffle_ev
  | snapshot_ev
  | zero_forces
  | add_gravity
  | integrate_vel
  | integrate_pos
  | collsion_detect (applied : Bool)
  | restore_state
  | create_contact_graph_ev (is_initial : Bool)
  | contact_detect (count : ℕ) (shock : Bool) (applied : Bool)
deriving DecidableEq

/-- The `System` and integrator operations called by `idle_func`, as opaque
state transformers on the world state `σ`.  `shuffle_bodies_op` is the swap
loop (lines 589-599), `snapshot_state` the `get_state_pos`/`get_state_vel`
loop (lines 609-612), `restore_state` the `set_state_pos`/`set_state_vel`
loops, `create_contact_graph_op` the call at lines 655/665/669/675, and the
two detectors return the "was any impulse applied" flag together with the
updated state. -/
structure SysOps (σ : Type) where
  shuffle_bodies_op : σ → σ
  snapshot_state : σ → σ
  zero_forces : σ → σ
  add_gravity : σ → σ
  integrate_vel : σ → σ
  integrate_pos : σ → σ
  collsion_detect : σ → Bool × σ
  restore_state : σ → σ
  create_contact_graph_op : Bool → σ → σ
  contact_detect : ℕ → Bool → σ → Bool × σ

/-- Result of one of the three detection loops: final state, exit value of
`count`, emitted events. -/
structure LoopOut (σ : Type) where
  state : σ
  count : ℕ
  trace : List Event

/-- The collision loop, lines 623-638:
`while(sys->collsion_detect(prev_pos, prev_vel) && count < MAX_COLLISIONS)`
with body `count++; restore; zero_forces; add_gravity; integrate`.  The
first argument is fuel; the loop is always entered with
`fuel + count = MAX_COLLISIONS`, for which the fuel never runs out before the
`count < MAX_COLLISIONS` guard fails, so the zero-fuel arm coincides with the
guard-failure arm. -/
def collision_loop {σ : Type} (ops : SysOps σ) : ℕ → ℕ → σ → LoopOut σ
  | 0, count, s =>
      let rs := ops.collsion_detect s
      ⟨rs.2, count, [Event.collsion_detect rs.1]⟩
  | fuel + 1, count, s =>
      let rs := ops.collsion_detect s
      if rs.1 = true ∧ count < MAX_COLLISIONS then
        let s1 := ops.restore_state rs.2
        let s2 := ops.add_gravity (ops.zero_forces s1)
        let s3 := ops.integrate_pos (ops.integrate_vel s2)
        let r := collision_loop ops fuel (count + 1) s3
        ⟨r.state, r.count,
          Event.collsion_detect rs.1 :: Event.restore_state :: Event.zero_forces ::
            Event.add_gravity :: Event.integrate_vel :: Event.integrate_pos :: r.trace⟩
      else ⟨rs.2, count, [Event.collsion_detect rs.1]⟩

/-- The contact loop, lines 663-666:
`for(count = 0; sys->contact_detect(count, false) && count < MAX_CONTACTS; count++)`
with body `create_contact_graph(prev_pos, prev_vel, false)`.  Fuel as in
`collision_loop`, entered with `fuel + count = MAX_CONTACTS`. -/
def contact_loop {σ : Type} (ops : SysOps σ) : ℕ → ℕ → σ → LoopOut σ
  | 0, count, s =>
      let rs := ops.contact_detect count false s
      ⟨rs.2, count, [Event.contact_detect count false rs.1]⟩
  | fuel + 1, count, s =>
      let rs := ops.contact_detect count false s
      if rs.1 = true ∧ count < MAX_CONTACTS then
        let r := contact_loop ops fuel (count + 1) (ops.create_contact_graph_op false rs.2)
        ⟨r.state, r.count,
          Event.contact_detect count false rs.1 :: Event.create_contact_graph_ev false :: r.trace⟩
      else ⟨rs.2, count, [Event.contact_detect count false rs.1]⟩

/-- The shock-propagation loop, lines 673-676:
`for(; sys->contact_detect(count, true) && count < MAX_SHOCK_PROP; count++)`
with body `create_contact_graph(prev_pos, prev_vel, false)`.  It is entered
with the `count` value carried over from the contact loop. -/
def shock_loop {σ : Type} (ops : SysOps σ) : ℕ → ℕ → σ → LoopOut σ
  | 0, count, s =>
      let rs := ops.contact_detect count true s
      ⟨rs.2, count, [Event.contact_detect count true rs.1]⟩
  | fuel + 1, count, s =>
      let rs := ops.contact_detect count true s
      if rs.1 = true ∧ count < MAX_SHOCK_PROP then
        let r := shock_loop ops fuel (count + 1) (ops.create_contact_graph_op false rs.2)
        ⟨r.state, r.count,
          Event.contact_detect count true rs.1 :: Event.create_contact_graph_ev false :: r.trace⟩
      else ⟨rs.2, count, [Event.contact_detect count true rs.1]⟩

/-- Lines 588-620 of `idle_func`: shuffle (lines 589-599), snapshot of
`(x, v)` into `prev_pos`/`prev_vel` (lines 609-612), `zero_forces`,
`add_gravity` (lines 615-616) and the tentative integrate (lines 617-620). -/
def tick_start {σ : Type} (ops : SysOps σ) (s : σ) : σ :=
  ops.integrate_pos (ops.integrate_vel
    (ops.add_gravity (ops.zero_forces (ops.snapshot_state (ops.shuffle_bodies_op s)))))

/-- Lines 622-638: the collision loop, started with `count = 0`. -/
def collision_result {σ : Type} (ops : SysOps σ) (s : σ) : LoopOut σ :=
  collision_loop ops MAX_COLLISIONS 0 (tick_start ops s)

/-- Lines 640-660: restore the snapshot (641-644), `zero_forces`,
`add_gravity` (647-648), build the initial contact graph (655) and integrate
velocities (658-660). -/
def contact_entry {σ : Type} (ops : SysOps σ) (s : σ) : σ :=
  ops.integrate_vel (ops.create_contact_graph_op true
    (ops.add_gravity (ops.zero_forces (ops.restore_state (collision_result ops s).state))))

/-- Lines 662-666: the contact loop, started with `count = 0`. -/
def contact_result {σ : Type} (ops : SysOps σ) (s : σ) : LoopOut σ :=
  contact_loop ops MAX_CONTACTS 0 (contact_entry ops s)

/-- Lines 668-677: the post-loop contact-graph rebuild (line 669) feeds the
shock-propagation loop, which runs only under `count == MAX_CONTACTS`
(line 671), with `count` carried over. -/
def shock_result {σ : Type} (ops : SysOps σ) (s : σ) : LoopOut σ :=
  let tl := contact_result ops s
  let s9 := ops.create_contact_graph_op false tl.state
  if tl.count = MAX_CONTACTS then shock_loop ops (MAX_SHOCK_PROP - tl.count) tl.count s9
  else ⟨s9, tl.count, []⟩

/-- Result of one simulated tick: the final state, the exit values of the
collision-loop counter and the contact-loop counter, and the event trace. -/
structure IdleResult (σ : Type) where
  state : σ
  collision_count : ℕ
  contact_count : ℕ
  trace : List Event

/-- The simulation part of `idle_func`, lines 588-682 (the fps bookkeeping of
lines 568-586 belongs to the display loop and carries no simulation state),
assembled from the stages above, with the final position integrate of
lines 680-682. -/
def idle_func {σ : Type} (ops : SysOps σ) (s : σ) : IdleResult σ :=
  let cl := collision_result ops s
  let tl := contact_result ops s
  let sh := shock_result ops s
  { state := ops.integrate_pos sh.state
    collision_count := cl.count
    contact_count := tl.count
    trace :=
      Event.shuffle_ev :: Event.snapshot_ev :: Event.zero_forces :: Event.add_gravity ::
        Event.integrate_vel :: Event.integrate_pos ::
        (cl.trace ++
          Event.restore_state :: Event.zero_forces :: Event.add_gravity ::
            Event.create_contact_graph_ev true :: Event.integrate_vel ::
            (tl.trace ++
              Event.create_contact_graph_ev false :: (sh.trace ++ [Event.integrate_pos]))) }

/-- Number of `collsion_detect` invocations recorded in a trace. -/
def n_collsion_detect : List Event → ℕ
  | [] => 0
  | Event.collsion_detect _ :: l => n_collsion_detect l + 1
  | _ :: l => n_collsion_detect l

/-- Number of non-shock `contact_detect` invocations (`shock = false`)
recorded in a trace. -/
def n_contact_calls : List Event → ℕ
  | [] => 0
  | Event.contact_detect _ false _ :: l => n_contact_calls l + 1
  | _ :: l => n_contact_calls l

/-- Number of shock-propagation `contact_detect` invocations (`shock = true`)
recorded in a trace. -/
def n_shock_calls : List Event → ℕ
  | [] => 0
  | Event.contact_detect _ true _ :: l => n_shock_calls l + 1
  | _ :: l => n_shock_calls l

/-- Number of `restore_state` operations recorded in a trace. -/
def n_restore : List Event → ℕ
  | [] => 0
  | Event.restore_state :: l => n_restore l + 1
  | _ :: l => n_restore l

/-- Number of contact-graph rebuilds (`create_contact_graph` with
`is_initial = false`) recorded in a trace. -/
def n_rebuild : List Event → ℕ
  | [] => 0
  | Event.create_contact_graph_ev false :: l => n_rebuild l + 1
  | _ :: l => n_rebuild l

theorem n_collsion_detect_append (l1 l2 : List Event) :
    n_collsion_detect (l1 ++ l2) = n_collsion_detect l1 + n_collsion_detect l2 := by
  induction l1 with
  | nil => simp [n_collsion_detect]
  | cons e l ih =>
      cases e <;> simp [List.cons_append, n_collsion_detect, ih] <;> omega

theorem n_contact_calls_append (l1 l2 : List Event) :
    n_contact_calls (l1 ++ l2) = n_contact_calls l1 + n_contact_calls l2 := by
  induction l1 with
  | nil => simp [n_contact_calls]
  | cons e l ih =>
      cases e with
      | contact_detect c sh a =>
          cases sh <;> simp [List.cons_append, n_contact_calls, ih] <;> omega
      | _ => simp [List.cons_append, n_contact_calls, ih]

theorem n_shock_calls_append (l1 l2 : List Event) :
    n_shock_calls (l1 ++ l2) = n_shock_calls l1 + n_shock_calls l2 := by
  induction l1 with
  | nil => simp [n_shock_calls]
  | cons e l ih =>
      cases e with
      | contact_detect c sh a =>
          cases sh <;> simp [List.cons_append, n_shock_calls, ih] <;> omega
      | _ => simp [List.cons_append, n_shock_calls, ih]

theorem n_rebuild_append (l1 l2 : List Event) :
    n_rebuild (l1 ++ l2) = n_rebuild l1 + n_rebuild l2 := by
  induction l1 with
  | nil => simp [n_rebuild]
  | cons e l ih =>
      cases e with
      | create_contact_graph_ev b =>
          cases b <;> simp [List.cons_append, n_rebuild, ih] <;> omega
      | _ => simp [List.cons_append, n_rebuild, ih]

theorem collision_loop_count_ge {σ : Type} (ops : SysOps σ) :
    ∀ (fuel count : ℕ) (s : σ), count ≤ (collision_loop ops fuel count s).count := by
  intro fuel
  induction fuel with
  | zero => intro count s; exact Nat.le_refl _
  | succ fuel ih =>
      intro count s
      simp only [collision_loop]
      split
      · exact Nat.le_trans (Nat.le_succ count) (ih (count + 1) _)
      · exact Nat.le_refl _

theorem collision_loop_count_le {σ : Type} (ops : SysOps σ) :
    ∀ (fuel count : ℕ) (s : σ), (collision_loop ops fuel count s).count ≤ count + fuel := by
  intro fuel
  induction fuel with
  | zero => intro count s; exact Nat.le_add_right _ _
  | succ fuel ih =>
      intro count s
      simp only [collision_loop]
      split
      · have := ih (count + 1)
          (ops.integrate_pos (ops.integrate_vel (ops.add_gravity
            (ops.zero_forces (ops.restore_state (ops.collsion_detect s).2)))))
        dsimp only
        omega
      · dsimp only
        omega

theorem collision_loop_calls {σ : Type} (ops : SysOps σ) :
    ∀ (fuel count : ℕ) (s : σ),
      n_collsion_detect (collision_loop ops fuel count s).trace
        = (collision_loop ops fuel count s).count - count + 1 := by
  intro fuel
  induction fuel with
  | zero =>
      intro count s
      simp only [collision_loop]
      simp [n_collsion_detect]
      all_goals omega
  | succ fuel ih =>
      intro count s
      simp only [collision_loop]
      split
      · have h1 := ih (count + 1)
          (ops.integrate_pos (ops.integrate_vel (ops.add_gravity
            (ops.zero_forces (ops.restore_state (ops.collsion_detect s).2)))))
        have h2 := collision_loop_count_ge ops fuel (count + 1)
          (ops.integrate_pos (ops.integrate_vel (ops.add_gravity
            (ops.zero_forces (ops.restore_state (ops.collsion_detect s).2)))))
        dsimp only
        simp [n_collsion_detect]
        all_goals omega
      · dsimp only
        simp [n_collsion_detect]
        all_goals omega

theorem collision_loop_restores {σ : Type} (ops : SysOps σ) :
    ∀ (fuel count : ℕ) (s : σ),
      n_restore (collision_loop ops fuel count s).trace
        = (collision_loop ops fuel count s).count - count := by
  intro fuel
  induction fuel with
  | zero =>
      intro count s
      simp only [collision_loop]
      simp [n_restore]
      all_goals omega
  | succ fuel ih =>
      intro count s
      simp only [collision_loop]
      split
      · have h1 := ih (count + 1)
          (ops.integrate_pos (ops.integrate_vel (ops.add_gravity
            (ops.zero_forces (ops.restore_state (ops.collsion_detect s).2)))))
        have h2 := collision_loop_count_ge ops fuel (count + 1)
          (ops.integrate_pos (ops.integrate_vel (ops.add_gravity
            (ops.zero_forces (ops.restore_state (ops.collsion_detect s).2)))))
        dsimp only
        simp [n_restore]
        all_goals omega
      · dsimp only
        simp [n_restore]
        all_goals omega

theorem collision_loop_no_shock {σ : Type} (ops : SysOps σ) :
    ∀ (fuel count : ℕ) (s : σ),
      n_shock_calls (collision_loop ops fuel count s).trace = 0 := by
  intro fuel
  induction fuel with
  | zero =>
      intro count s
      simp only [collision_loop]
      simp [n_shock_calls]
  | succ fuel ih =>
      intro count s
      simp only [collision_loop]
      split
      · have h1 := ih (count + 1)
          (ops.integrate_pos (ops.integrate_vel (ops.add_gravity
            (ops.zero_forces (ops.restore_state (ops.collsion_detect s).2)))))
        dsimp only
        simp [n_shock_calls]
        all_goals omega
      · dsimp only
        simp [n_shock_calls]

theorem collision_loop_early {σ : Type} (ops : SysOps σ) (s : σ)
    (h : (ops.collsion_detect s).1 = false) :
    ∀ (fuel count : ℕ),
      collision_loop ops fuel count s
        = ⟨(ops.collsion_detect s).2, count, [Event.collsion_detect (ops.collsion_detect s).1]⟩ := by
  intro fuel count
  cases fuel with
  | zero => rfl
  | succ fuel =>
      simp only [collision_loop]
      rw [if_neg]
      intro hc
      rw [h] at hc
      exact Bool.false_ne_true hc.1

theorem collision_loop_last {σ : Type} (ops : SysOps σ) :
    ∀ (fuel count : ℕ) (s : σ),
      ∃ s0 : σ, (collision_loop ops fuel count s).state = (ops.collsion_detect s0).2 := by
  intro fuel
  induction fuel with
  | zero => intro count s; exact ⟨s, rfl⟩
  | succ fuel ih =>
      intro count s
      simp only [collision_loop]
      split
      · exact ih (count + 1) _
      · exact ⟨s, rfl⟩

theorem contact_loop_count_ge {σ : Type} (ops : SysOps σ) :
    ∀ (fuel count : ℕ) (s : σ), count ≤ (contact_loop ops fuel count s).count := by
  intro fuel
  induction fuel with
  | zero => intro count s; exact Nat.le_refl _
  | succ fuel ih =>
      intro count s
      simp only [contact_loop]
      split
      · exact Nat.le_trans (Nat.le_succ count) (ih (count + 1) _)
      · exact Nat.le_refl _

theorem contact_loop_count_le {σ : Type} (ops : SysOps σ) :
    ∀ (fuel count : ℕ) (s : σ), (contact_loop ops fuel count s).count ≤ count + fuel := by
  intro fuel
  induction fuel with
  | zero => intro count s; exact Nat.le_add_right _ _
  | succ fuel ih =>
      intro count s
      simp only [contact_loop]
      split
      · have := ih (count + 1)
          (ops.create_contact_graph_op false (ops.contact_detect count false s).2)
        dsimp only
        omega
      · dsimp only
        omega

theorem contact_loop_calls {σ : Type} (ops : SysOps σ) :
    ∀ (fuel count : ℕ) (s : σ),
      n_contact_calls (contact_loop ops fuel count s).trace
        = (contact_loop ops fuel count s).count - count + 1 := by
  intro fuel
  induction fuel with
  | zero =>
      intro count s
      simp only [contact_loop]
      simp [n_contact_calls]
      all_goals omega
  | succ fuel ih =>
      intro count s
      simp only [contact_loop]
      split
      · have h1 := ih (count + 1)
          (ops.create_contact_graph_op false (ops.contact_detect count false s).2)
        have h2 := contact_loop_count_ge ops fuel (count + 1)
          (ops.create_contact_graph_op false (ops.contact_detect count false s).2)
        dsimp only
        simp [n_contact_calls]
        all_goals omega
      · dsimp only
        simp [n_contact_calls]
        all_goals omega

theorem contact_loop_rebuilds {σ : Type} (ops : SysOps σ) :
    ∀ (fuel count : ℕ) (s : σ),
      n_rebuild (contact_loop ops fuel count s).trace
        = (contact_loop ops fuel count s).count - count := by
  intro fuel
  induction fuel with
  | zero =>
      intro count s
      simp only [contact_loop]
      simp [n_rebuild]
      all_goals omega
  | succ fuel ih =>
      intro count s
      simp only [contact_loop]
      split
      · have h1 := ih (count + 1)
          (ops.create_contact_graph_op false (ops.contact_detect count false s).2)
        have h2 := contact_loop_count_ge ops fuel (count + 1)
          (ops.create_contact_graph_op false (ops.contact_detect count false s).2)
        dsimp only
        simp [n_rebuild]
        all_goals omega
      · dsimp only
        simp [n_rebuild]
        all_goals omega

theorem contact_loop_no_shock {σ : Type} (ops : SysOps σ) :
    ∀ (fuel count : ℕ) (s : σ),
      n_shock_calls (contact_loop ops fuel count s).trace = 0 := by
  intro fuel
  induction fuel with
  | zero =>
      intro count s
      simp only [contact_loop]
      simp [n_shock_calls]
  | succ fuel ih =>
      intro count s
      simp only [contact_loop]
      split
      · have h1 := ih (count + 1)
          (ops.create_contact_graph_op false (ops.contact_detect count false s).2)
        dsimp only
        simp [n_shock_calls]
        all_goals omega
      · dsimp only
        simp [n_shock_calls]

theorem contact_loop_early {σ : Type} (ops : SysOps σ) (count : ℕ) (s : σ)
    (h : (ops.contact_detect count false s).1 = false) :
    ∀ fuel : ℕ,
      contact_loop ops fuel count s
        = ⟨(ops.contact_detect count false s).2, count,
            [Event.contact_detect count false (ops.contact_detect count false s).1]⟩ := by
  intro fuel
  cases fuel with
  | zero => rfl
  | succ fuel =>
      simp only [contact_loop]
      rw [if_neg]
      intro hc
      rw [h] at hc
      exact Bool.false_ne_true hc.1

theorem shock_loop_stuck {σ : Type} (ops : SysOps σ) (count : ℕ) (s : σ)
    (h : MAX_SHOCK_PROP ≤ count) :
    ∀ fuel : ℕ,
      shock_loop ops fuel count s
        = ⟨(ops.contact_detect count true s).2, count,
            [Event.contact_detect count true (ops.contact_detect count true s).1]⟩ := by
  intro fuel
  cases fuel with
  | zero => rfl
  | succ fuel =>
      simp only [shock_loop]
      rw [if_neg]
      intro hc
      omega


theorem shock_result_n_shock_sat {σ : Type} (ops : SysOps σ) (s : σ)
    (h : (contact_result ops s).count = MAX_CONTACTS) :
    n_shock_calls (shock_result ops s).trace = 1 := by
  simp only [shock_result]
  rw [if_pos h, shock_loop_stuck ops _ _ (by rw [h]; decide)]
  simp [n_shock_calls]

theorem shock_result_trace_unsat {σ : Type} (ops : SysOps σ) (s : σ)
    (h : ¬(contact_result ops s).count = MAX_CONTACTS) :
    (shock_result ops s).trace = [] := by
  simp only [shock_result]
  rw [if_neg h]

theorem shock_result_no_contact_calls {σ : Type} (ops : SysOps σ) (s : σ) :
    n_contact_calls (shock_result ops s).trace = 0 := by
  simp only [shock_result]
  split_ifs with h
  · rw [shock_loop_stuck ops _ _ (by rw [h]; decide)]
    simp [n_contact_calls]
  · rfl

/-- C1: a shock-propagation pass (a `contact_detect` call with `shock=true`)
runs in a tick exactly when the contact loop exited with its counter equal to
`MAX_CONTACTS = 10` (which is the only exit value `≥ MAX_CONTACTS`), and then
exactly one such call happens; with an earlier exit no shock pass runs. -/
theorem C1_shock_only_after_saturation {σ : Type} (ops : SysOps σ) (s : σ) :
    (n_shock_calls (idle_func ops s).trace
        = if (idle_func ops s).contact_count = MAX_CONTACTS then 1 else 0)
    ∧ (idle_func ops s).contact_count ≤ MAX_CONTACTS := by
  have hcl : n_shock_calls (collision_result ops s).trace = 0 :=
    collision_loop_no_shock ops MAX_COLLISIONS 0 (tick_start ops s)
  have htl : n_shock_calls (contact_result ops s).trace = 0 :=
    contact_loop_no_shock ops MAX_CONTACTS 0 (contact_entry ops s)
  have hle : (contact_result ops s).count ≤ MAX_CONTACTS := by
    have h := contact_loop_count_le ops MAX_CONTACTS 0 (contact_entry ops s)
    have hcr : contact_result ops s
        = contact_loop ops MAX_CONTACTS 0 (contact_entry ops s) := rfl
    rw [hcr]
    omega
  have hcc : (idle_func ops s).contact_count = (contact_result ops s).count := rfl
  have hmain : n_shock_calls (idle_func ops s).trace
      = n_shock_calls (shock_result ops s).trace := by
    simp only [idle_func]
    simp [n_shock_calls, n_shock_calls_append, hcl, htl]
  refine ⟨?_, by rw [hcc]; exact hle⟩
  rw [hmain, hcc]
  by_cases h : (contact_result ops s).count = MAX_CONTACTS
  · rw [if_pos h, shock_result_n_shock_sat ops s h]
  · rw [if_neg h, shock_result_trace_unsat ops s h]
    rfl

/-- C2: the collision loop performs at most `MAX_COLLISIONS = 5`
restore-and-reintegrate passes (one `restore_state` each); it stops with zero
passes when the first `collsion_detect` applies no impulse; the detector is
invoked once more than there are passes, because the `count < MAX_COLLISIONS`
guard is evaluated after `collsion_detect` runs; and the loop's final state
is always the output of the last `collsion_detect` call, so that call's
impulses are kept even at the pass limit. -/
theorem C2_collision_loop_guard {σ : Type} (ops : SysOps σ) (s : σ) :
    (idle_func ops s).collision_count ≤ MAX_COLLISIONS
    ∧ n_restore (collision_result ops s).trace = (idle_func ops s).collision_count
    ∧ n_collsion_detect (collision_result ops s).trace = (idle_func ops s).collision_count + 1
    ∧ ((ops.collsion_detect (tick_start ops s)).1 = false →
        (idle_func ops s).collision_count = 0
        ∧ (collision_result ops s).state = (ops.collsion_detect (tick_start ops s)).2)
    ∧ (∃ s0 : σ, (collision_result ops s).state = (ops.collsion_detect s0).2) := by
  have hcc : (idle_func ops s).collision_count = (collision_result ops s).count := rfl
  have hcr : collision_result ops s
      = collision_loop ops MAX_COLLISIONS 0 (tick_start ops s) := rfl
  have hle := collision_loop_count_le ops MAX_COLLISIONS 0 (tick_start ops s)
  have hres := collision_loop_restores ops MAX_COLLISIONS 0 (tick_start ops s)
  have hcalls := collision_loop_calls ops MAX_COLLISIONS 0 (tick_start ops s)
  refine ⟨?_, ?_, ?_, ?_, ?_⟩
  · rw [hcc, hcr]; omega
  · rw [hcc, hcr, hres]; omega
  · rw [hcc, hcr, hcalls]; omega
  · intro h
    have he := collision_loop_early ops (tick_start ops s) h MAX_COLLISIONS 0
    rw [← hcr] at he
    exact ⟨by rw [hcc, he], by rw [he]⟩
  · rw [hcr]
    exact collision_loop_last ops MAX_COLLISIONS 0 (tick_start ops s)

/-- Concrete operations over `σ = ℕ` for witnesses: every operation is the
identity except the detectors, which report no applied impulse. -/
def opsNone : SysOps ℕ where
  shuffle_bodies_op := id
  snapshot_state := id
  zero_forces := id
  add_gravity := id
  integrate_vel := id
  integrate_pos := id
  collsion_detect := fun n => (false, n + 1)
  restore_state := id
  create_contact_graph_op := fun _ n => n
  contact_detect := fun _ _ n => (false, n)

/-- Witness for C2 at the concrete operations `opsNone` and state `0`. -/
theorem C2_collision_loop_guard_witness :
    (idle_func opsNone 0).collision_count = 0
    ∧ (collision_result opsNone 0).state = (opsNone.collsion_detect (tick_start opsNone 0)).2 :=
  (C2_collision_loop_guard opsNone 0).2.2.2.1 rfl

/-- Concrete operations over `σ = ℕ` whose contact detector always reports an
applied impulse, saturating the contact loop. -/
def opsAll : SysOps ℕ where
  shuffle_bodies_op := id
  snapshot_state := id
  zero_forces := id
  add_gravity := id
  integrate_vel := id
  integrate_pos := id
  collsion_detect := fun n => (false, n)
  restore_state := id
  create_contact_graph_op := fun _ n => n
  contact_detect := fun _ _ n => (true, n + 1)

/-- C4 counterexample: with a contact detector that always applies an
impulse, the contact loop of one tick invokes `contact_detect(count, false)`
`MAX_CONTACTS + 1 = 11` times, so "repeats contact_detect up to
MAX_CONTACTS = 10 times" fails. -/
theorem C4_counterexample :
    ¬ n_contact_calls (contact_result opsAll 0).trace ≤ MAX_CONTACTS := by
  decide

/-- C4 (amended): the contact loop exits with `count ≤ MAX_CONTACTS = 10`
after invoking `contact_detect(count, false)` exactly `count + 1` times (up
to 11), with exactly `count` contact-graph rebuilds between consecutive
invocations (up to 10); it exits with zero passes when the first invocation
applies no impulse; and one further rebuild always follows the loop, before
any shock-propagation call. -/
theorem C4_contact_loop_passes {σ : Type} (ops : SysOps σ) (s : σ) :
    (idle_func ops s).contact_count ≤ MAX_CONTACTS
    ∧ n_contact_calls (contact_result ops s).trace = (idle_func ops s).contact_count + 1
    ∧ n_rebuild (contact_result ops s).trace = (idle_func ops s).contact_count
    ∧ ((ops.contact_detect 0 false (contact_entry ops s)).1 = false →
        (idle_func ops s).contact_count = 0)
    ∧ (∃ l : List Event,
        (idle_func ops s).trace
          = l ++ Event.create_contact_graph_ev false ::
              ((shock_result ops s).trace ++ [Event.integrate_pos])
        ∧ n_contact_calls (shock_result ops s).trace = 0) := by
  have hcc : (idle_func ops s).contact_count = (contact_result ops s).count := rfl
  have hcr : contact_result ops s
      = contact_loop ops MAX_CONTACTS 0 (contact_entry ops s) := rfl
  have hle := contact_loop_count_le ops MAX_CONTACTS 0 (contact_entry ops s)
  have hcalls := contact_loop_calls ops MAX_CONTACTS 0 (contact_entry ops s)
  have hreb := contact_loop_rebuilds ops MAX_CONTACTS 0 (contact_entry ops s)
  refine ⟨?_, ?_, ?_, ?_, ?_⟩
  · rw [hcc, hcr]; omega
  · rw [hcc, hcr, hcalls]; omega
  · rw [hcc, hcr, hreb]; omega
  · intro h
    have he := contact_loop_early ops 0 (contact_entry ops s) h MAX_CONTACTS
    rw [← hcr] at he
    rw [hcc, he]
  · refine ⟨Event.shuffle_ev :: Event.snapshot_ev :: Event.zero_forces :: Event.add_gravity ::
      Event.integrate_vel :: Event.integrate_pos ::
      ((collision_result ops s).trace ++
        Event.restore_state :: Event.zero_forces :: Event.add_gravity ::
          Event.create_contact_graph_ev true :: Event.integrate_vel ::
          (contact_result ops s).trace), ?_, shock_result_no_contact_calls ops s⟩
    simp [idle_func, List.append_assoc]

/-- Witness for C4 (amended) at the concrete operations `opsNone` and
state `0`. -/
theorem C4_contact_loop_passes_witness : (idle_func opsNone 0).contact_count = 0 :=
  (C4_contact_loop_passes opsNone 0).2.2.2.1 rfl

/-- C8 counterexample: at concrete operations, the first snapshot event of
the tick trace does not precede the shuffle event — the snapshot is not
taken before the random swap. -/
theorem C8_counterexample :
    ¬ (idle_func opsNone 0).trace.indexOf Event.snapshot_ev
        < (idle_func opsNone 0).trace.indexOf Event.shuffle_ev := by
  decide

/-- C8 (amended): within one tick the random swap of the body array is
performed first, and the snapshot of all bodies' `(x, v)` into
`prev_pos`/`prev_vel` is taken right after it, before every other
operation of the tick. -/
theorem C8_swap_then_snapshot {σ : Type} (ops : SysOps σ) (s : σ) :
    ∃ t : List Event,
      (idle_func ops s).trace = Event.shuffle_ev :: Event.snapshot_ev :: t :=
  ⟨_, rfl⟩

/-! ## `create_contact_graph` (lines 510-548)

The probing loop manipulates each body's positional state (`α`, position and
orientation — the `POS_STATE` slice), velocity state (`β`, momenta — the
`VEL_STATE` slice), `inv_mass` (scalar type `Q`, only compared with `0`) and
contact list; contact points and normals are abstract of type `γ`.  The body
array and the caller's `prev_pos`/`prev_vel` buffers are `Fin n`-indexed. -/

/-- `ContactInfo` as used at lines 517 and 532-536: the supporting body `b`
is stored as an index into the body array (the design-notes model of the
`Body*` member), with contact point `p` and `normal`. -/
structure ContactInfo (γ : Type) (n : ℕ) where
  b : Fin n
  p : γ
  normal : γ
deriving DecidableEq

/-- The `Body` fields that `create_contact_graph` touches. -/
structure RBody (α β γ Q : Type) (n : ℕ) where
  x : α
  v : β
  inv_mass : Q
  in_contact_list : List (ContactInfo γ n)
deriving DecidableEq

/-- The integrator and intersection operations used by `create_contact_graph`
(their translation units are not among the sources, so they are opaque):
`integrate_vel`/`integrate_pos` map a body's `(x, v, inv_mass)` to its new
velocity/positional state (the forces current during the call are absorbed
into the function, as they are constant across the call), and
`intersection_test xk xi` is `bVector[k]->intersection_test(bVector[i], p,
normal)` — a geometric test on the two positional states yielding the
contact point and normal on overlap. -/
structure CGEnv (α β γ Q : Type) where
  integrate_vel : α → β → Q → β
  integrate_pos : α → β → Q → α
  intersection_test : α → α → Option (γ × γ)

/-- The state acted on by `create_contact_graph`: the body array and the
caller's `prev_pos`/`prev_vel` buffers (one slot per body). -/
structure CGState (α β γ Q : Type) (n : ℕ) where
  bodies : Fin n → RBody α β γ Q n
  prev_pos : Fin n → α
  prev_vel : Fin n → β

/-- The tentative advance of one body alone by `dt` (lines 526-528): a
velocity integrate only when `is_initial` (to pick up gravity), then a
position integrate. -/
def advance {α β γ Q : Type} {n : ℕ} (env : CGEnv α β γ Q) (is_initial : Bool)
    (b : RBody α β γ Q n) : RBody α β γ Q n :=
  let v1 := if is_initial then env.integrate_vel b.x b.v b.inv_mass else b.v
  { b with v := v1, x := env.integrate_pos b.x v1 b.inv_mass }

/-- The inner loop of lines 530-538: every body `k != i` of the current array
is tested against body `i`, and hits are appended to body `i`'s list in
index order. -/
def contact_scan {α β γ Q : Type} (env : CGEnv α β γ Q) {n : ℕ}
    (bodies : Fin n → RBody α β γ Q n) (i : Fin n) : List (ContactInfo γ n) :=
  (List.finRange n).filterMap fun k =>
    if k ≠ i then
      match env.intersection_test (bodies k).x (bodies i).x with
      | some pn => some ⟨k, pn.1, pn.2⟩
      | none => none
    else none

/-- The contacts body `i` picks up in one probe: the scan with body `i`
replaced by its tentative advance from its state in `bodies`. -/
def probe_contacts {α β γ Q : Type} (env : CGEnv α β γ Q) {n : ℕ} (is_initial : Bool)
    (bodies : Fin n → RBody α β γ Q n) (i : Fin n) : List (ContactInfo γ n) :=
  contact_scan env (Function.update bodies i (advance env is_initial (bodies i))) i

/-- One iteration of the outer loop of `create_contact_graph` (lines 519-541)
for body `i`: if `inv_mass != 0`, save body `i`'s `(x, v)` into buffer slots
`i` (`get_state_pos`/`get_state_vel`, lines 523-524), integrate body `i`
alone (lines 526-528), scan for intersections appending to its contact list
(lines 530-538), and restore body `i` from the buffer slots
(`set_state_pos`/`set_state_vel`, lines 539-540).
Modelled from the spec for the missing `System.cpp`: `get_state_*(buf, i)`
copies body `i`'s state INTO `buf` and `set_state_*(buf, i)` copies it back,
matching the snapshot use at lines 608-612 ("get x and v") and the restore
use at lines 640-644 ("set the system back to x and v") and the spec's
data-flow description (section 2). -/
def probe_body {α β γ Q : Type} [Zero Q] [DecidableEq Q] (env : CGEnv α β γ Q) {n : ℕ}
    (is_initial : Bool) (st : CGState α β γ Q n) (i : Fin n) : CGState α β γ Q n :=
  let b := st.bodies i
  if b.inv_mass ≠ 0 then
    let pp := Function.update st.prev_pos i b.x
    let pv := Function.update st.prev_vel i b.v
    let bodies1 := Function.update st.bodies i (advance env is_initial b)
    let cs := contact_scan env bodies1 i
    let bodies2 := Function.update bodies1 i
      { bodies1 i with in_contact_list := (bodies1 i).in_contact_list ++ cs }
    let bodies3 := Function.update bodies2 i { bodies2 i with x := pp i, v := pv i }
    { bodies := bodies3, prev_pos := pp, prev_vel := pv }
  else st

/-- The outer loop of lines 519-542, over a list of body indices. -/
def ccg_fold {α β γ Q : Type} [Zero Q] [DecidableEq Q] (env : CGEnv α β γ Q) {n : ℕ}
    (is_initial : Bool) (st : CGState α β γ Q n) (l : List (Fin n)) : CGState α β γ Q n :=
  l.foldl (probe_body env is_initial) st

/-- `create_contact_graph(prev_pos, prev_vel, is_initial)`, lines 510-548:
clear every contact list (lines 513-514), then probe each body in index
order (lines 519-542).  The trailing `topological_tarjan` and `get_bodies`
calls (lines 545-547) are the identity on this state: per the spec they
write only the Tarjan scratch fields and the `top_sorted` ordering, which
are outside this model, and the body array is not reordered during a tick
(spec design notes; modelled from the spec for the missing `System.cpp`). -/
def create_contact_graph {α β γ Q : Type} [Zero Q] [DecidableEq Q] (env : CGEnv α β γ Q)
    {n : ℕ} (is_initial : Bool) (st : CGState α β γ Q n) : CGState α β γ Q n :=
  let st0 : CGState α β γ Q n :=
    { st with bodies := fun j => { st.bodies j with in_contact_list := [] } }
  ccg_fold env is_initial st0 (List.finRange n)

theorem probe_body_bodies_ne {α β γ Q : Type} [Zero Q] [DecidableEq Q] (env : CGEnv α β γ Q)
    {n : ℕ} (is_initial : Bool) (st : CGState α β γ Q n) (i j : Fin n) (hj : j ≠ i) :
    (probe_body env is_initial st i).bodies j = st.bodies j := by
  simp only [probe_body]
  split
  · simp [Function.update_noteq hj]
  · rfl

theorem probe_body_prev_ne {α β γ Q : Type} [Zero Q] [DecidableEq Q] (env : CGEnv α β γ Q)
    {n : ℕ} (is_initial : Bool) (st : CGState α β γ Q n) (i j : Fin n) (hj : j ≠ i) :
    (probe_body env is_initial st i).prev_pos j = st.prev_pos j
    ∧ (probe_body env is_initial st i).prev_vel j = st.prev_vel j := by
  simp only [probe_body]
  split
  · constructor <;> simp [Function.update_noteq hj]
  · exact ⟨rfl, rfl⟩

theorem probe_body_core {α β γ Q : Type} [Zero Q] [DecidableEq Q] (env : CGEnv α β γ Q)
    {n : ℕ} (is_initial : Bool) (st : CGState α β γ Q n) (i j : Fin n) :
    ((probe_body env is_initial st i).bodies j).x = (st.bodies j).x
    ∧ ((probe_body env is_initial st i).bodies j).v = (st.bodies j).v
    ∧ ((probe_body env is_initial st i).bodies j).inv_mass = (st.bodies j).inv_mass := by
  by_cases hj : j = i
  · subst hj
    simp only [probe_body]
    split
    · refine ⟨?_, ?_, ?_⟩ <;> simp [Function.update_same, advance]
    · exact ⟨rfl, rfl, rfl⟩
  · rw [probe_body_bodies_ne env is_initial st i j hj]
    exact ⟨rfl, rfl, rfl⟩

theorem probe_body_self {α β γ Q : Type} [Zero Q] [DecidableEq Q] (env : CGEnv α β γ Q)
    {n : ℕ} (is_initial : Bool) (st : CGState α β γ Q n) (i : Fin n)
    (h : (st.bodies i).inv_mass ≠ 0) :
    (probe_body env is_initial st i).bodies i
      = { st.bodies i with
          in_contact_list :=
            (st.bodies i).in_contact_list ++ probe_contacts env is_initial st.bodies i } := by
  simp only [probe_body]
  rw [if_pos h]
  simp [Function.update_same, advance, probe_contacts]

theorem probe_body_prev_self {α β γ Q : Type} [Zero Q] [DecidableEq Q] (env : CGEnv α β γ Q)
    {n : ℕ} (is_initial : Bool) (st : CGState α β γ Q n) (i : Fin n)
    (h : (st.bodies i).inv_mass ≠ 0) :
    (probe_body env is_initial st i).prev_pos i = (st.bodies i).x
    ∧ (probe_body env is_initial st i).prev_vel i = (st.bodies i).v := by
  simp only [probe_body]
  rw [if_pos h]
  constructor <;> simp [Function.update_same]

theorem probe_body_fixed {α β γ Q : Type} [Zero Q] [DecidableEq Q] (env : CGEnv α β γ Q)
    {n : ℕ} (is_initial : Bool) (st : CGState α β γ Q n) (i : Fin n)
    (h : (st.bodies i).inv_mass = 0) :
    probe_body env is_initial st i = st := by
  simp only [probe_body]
  rw [if_neg (fun hc => hc h)]

theorem contact_scan_congr {α β γ Q : Type} (env : CGEnv α β γ Q) {n : ℕ}
    (bodies bodies' : Fin n → RBody α β γ Q n) (i : Fin n)
    (hx : ∀ k, (bodies k).x = (bodies' k).x) :
    contact_scan env bodies i = contact_scan env bodies' i := by
  unfold contact_scan
  have hfun :
      (fun k : Fin n =>
        if k ≠ i then
          match env.intersection_test (bodies k).x (bodies i).x with
          | some pn => some (ContactInfo.mk k pn.1 pn.2)
          | none => none
        else none)
      = (fun k : Fin n =>
        if k ≠ i then
          match env.intersection_test (bodies' k).x (bodies' i).x with
          | some pn => some (ContactInfo.mk k pn.1 pn.2)
          | none => none
        else none) := by
    funext k
    rw [hx k, hx i]
  rw [hfun]

theorem probe_contacts_congr {α β γ Q : Type} (env : CGEnv α β γ Q) {n : ℕ}
    (is_initial : Bool) (bodies bodies' : Fin n → RBody α β γ Q n) (i : Fin n)
    (hx : ∀ k, (bodies k).x = (bodies' k).x) (hv : ∀ k, (bodies k).v = (bodies' k).v)
    (hm : ∀ k, (bodies k).inv_mass = (bodies' k).inv_mass) :
    probe_contacts env is_initial bodies i = probe_contacts env is_initial bodies' i := by
  unfold probe_contacts
  apply contact_scan_congr
  intro k
  by_cases hk : k = i
  · subst hk
    rw [Function.update_same, Function.update_same]
    simp [advance, hx k, hv k, hm k]
  · rw [Function.update_noteq hk, Function.update_noteq hk]
    exact hx k

theorem ccg_fold_bodies_not_mem {α β γ Q : Type} [Zero Q] [DecidableEq Q]
    (env : CGEnv α β γ Q) {n : ℕ} (is_initial : Bool) :
    ∀ (l : List (Fin n)) (st : CGState α β γ Q n) (j : Fin n), j ∉ l →
      (ccg_fold env is_initial st l).bodies j = st.bodies j := by
  intro l
  induction l with
  | nil => intro st j _; rfl
  | cons a l ih =>
      intro st j hj
      have hne : j ≠ a := fun h => hj (h ▸ List.mem_cons_self a l)
      have hstep : ccg_fold env is_initial st (a :: l)
          = ccg_fold env is_initial (probe_body env is_initial st a) l := rfl
      rw [hstep, ih _ j (fun h => hj (List.mem_cons_of_mem a h))]
      exact probe_body_bodies_ne env is_initial st a j hne

theorem ccg_fold_prev_not_mem {α β γ Q : Type} [Zero Q] [DecidableEq Q]
    (env : CGEnv α β γ Q) {n : ℕ} (is_initial : Bool) :
    ∀ (l : List (Fin n)) (st : CGState α β γ Q n) (j : Fin n), j ∉ l →
      (ccg_fold env is_initial st l).prev_pos j = st.prev_pos j
      ∧ (ccg_fold env is_initial st l).prev_vel j = st.prev_vel j := by
  intro l
  induction l with
  | nil => intro st j _; exact ⟨rfl, rfl⟩
  | cons a l ih =>
      intro st j hj
      have hne : j ≠ a := fun h => hj (h ▸ List.mem_cons_self a l)
      have hstep : ccg_fold env is_initial st (a :: l)
          = ccg_fold env is_initial (probe_body env is_initial st a) l := rfl
      have h1 := ih (probe_body env is_initial st a) j (fun h => hj (List.mem_cons_of_mem a h))
      have h2 := probe_body_prev_ne env is_initial st a j hne
      rw [hstep]
      exact ⟨h1.1.trans h2.1, h1.2.trans h2.2⟩

theorem ccg_fold_core {α β γ Q : Type} [Zero Q] [DecidableEq Q]
    (env : CGEnv α β γ Q) {n : ℕ} (is_initial : Bool) :
    ∀ (l : List (Fin n)) (st : CGState α β γ Q n) (j : Fin n),
      ((ccg_fold env is_initial st l).bodies j).x = (st.bodies j).x
      ∧ ((ccg_fold env is_initial st l).bodies j).v = (st.bodies j).v
      ∧ ((ccg_fold env is_initial st l).bodies j).inv_mass = (st.bodies j).inv_mass := by
  intro l
  induction l with
  | nil => intro st j; exact ⟨rfl, rfl, rfl⟩
  | cons a l ih =>
      intro st j
      have hstep : ccg_fold env is_initial st (a :: l)
          = ccg_fold env is_initial (probe_body env is_initial st a) l := rfl
      have h1 := ih (probe_body env is_initial st a) j
      have h2 := probe_body_core env is_initial st a j
      rw [hstep]
      exact ⟨h1.1.trans h2.1, h1.2.1.trans h2.2.1, h1.2.2.trans h2.2.2⟩

theorem ccg_fold_contacts {α β γ Q : Type} [Zero Q] [DecidableEq Q]
    (env : CGEnv α β γ Q) {n : ℕ} (is_initial : Bool) :
    ∀ (l : List (Fin n)), l.Nodup → ∀ (st : CGState α β γ Q n) (i : Fin n), i ∈ l →
      (st.bodies i).inv_mass ≠ 0 →
      ((ccg_fold env is_initial st l).bodies i).in_contact_list
        = (st.bodies i).in_contact_list ++ probe_contacts env is_initial st.bodies i := by
  intro l
  induction l with
  | nil => intro _ st i hi; exact absurd hi (List.not_mem_nil i)
  | cons a l ih =>
      intro hnd st i hi hm
      have hstep : ccg_fold env is_initial st (a :: l)
          = ccg_fold env is_initial (probe_body env is_initial st a) l := rfl
      rw [hstep]
      by_cases hia : i = a
      · subst hia
        have hnotmem : i ∉ l := (List.nodup_cons.mp hnd).1
        rw [ccg_fold_bodies_not_mem env is_initial l _ i hnotmem,
          probe_body_self env is_initial st i hm]
      · have hil : i ∈ l := by
          rcases List.mem_cons.mp hi with h | h
          · exact absurd h hia
          · exact h
        have hnd' : l.Nodup := (List.nodup_cons.mp hnd).2
        have hm' : ((probe_body env is_initial st a).bodies i).inv_mass ≠ 0 := by
          rw [(probe_body_core env is_initial st a i).2.2]; exact hm
        rw [ih hnd' (probe_body env is_initial st a) i hil hm',
          probe_body_bodies_ne env is_initial st a i hia]
        congr 1
        apply probe_contacts_congr
        · intro k; exact (probe_body_core env is_initial st a k).1
        · intro k; exact (probe_body_core env is_initial st a k).2.1
        · intro k; exact (probe_body_core env is_initial st a k).2.2

theorem ccg_fold_prev_movable {α β γ Q : Type} [Zero Q] [DecidableEq Q]
    (env : CGEnv α β γ Q) {n : ℕ} (is_initial : Bool) :
    ∀ (l : List (Fin n)), l.Nodup → ∀ (st : CGState α β γ Q n) (i : Fin n), i ∈ l →
      (st.bodies i).inv_mass ≠ 0 →
      (ccg_fold env is_initial st l).prev_pos i = (st.bodies i).x
      ∧ (ccg_fold env is_initial st l).prev_vel i = (st.bodies i).v := by
  intro l
  induction l with
  | nil => intro _ st i hi; exact absurd hi (List.not_mem_nil i)
  | cons a l ih =>
      intro hnd st i hi hm
      have hstep : ccg_fold env is_initial st (a :: l)
          = ccg_fold env is_initial (probe_body env is_initial st a) l := rfl
      rw [hstep]
      by_cases hia : i = a
      · subst hia
        have hnotmem : i ∉ l := (List.nodup_cons.mp hnd).1
        have h1 := ccg_fold_prev_not_mem env is_initial l (probe_body env is_initial st i) i hnotmem
        have h2 := probe_body_prev_self env is_initial st i hm
        exact ⟨h1.1.trans h2.1, h1.2.trans h2.2⟩
      · have hil : i ∈ l := by
          rcases List.mem_cons.mp hi with h | h
          · exact absurd h hia
          · exact h
        have hnd' : l.Nodup := (List.nodup_cons.mp hnd).2
        have hm' : ((probe_body env is_initial st a).bodies i).inv_mass ≠ 0 := by
          rw [(probe_body_core env is_initial st a i).2.2]; exact hm
        have h1 := ih hnd' (probe_body env is_initial st a) i hil hm'
        have h2 := probe_body_core env is_initial st a i
        rw [probe_body_bodies_ne env is_initial st a i hia] at h1
        exact h1

theorem ccg_fold_fixed {α β γ Q : Type} [Zero Q] [DecidableEq Q]
    (env : CGEnv α β γ Q) {n : ℕ} (is_initial : Bool) :
    ∀ (l : List (Fin n)) (st : CGState α β γ Q n) (i : Fin n),
      (st.bodies i).inv_mass = 0 →
      (ccg_fold env is_initial st l).bodies i = st.bodies i
      ∧ (ccg_fold env is_initial st l).prev_pos i = st.prev_pos i
      ∧ (ccg_fold env is_initial st l).prev_vel i = st.prev_vel i := by
  intro l
  induction l with
  | nil => intro st i _; exact ⟨rfl, rfl, rfl⟩
  | cons a l ih =>
      intro st i hm
      have hstep : ccg_fold env is_initial st (a :: l)
          = ccg_fold env is_initial (probe_body env is_initial st a) l := rfl
      rw [hstep]
      by_cases hia : i = a
      · subst hia
        rw [probe_body_fixed env is_initial st i hm]
        exact ih st i hm
      · have hm' : ((probe_body env is_initial st a).bodies i).inv_mass = 0 := by
          rw [(probe_body_core env is_initial st a i).2.2]; exact hm
        have h1 := ih (probe_body env is_initial st a) i hm'
        have h2 := probe_body_bodies_ne env is_initial st a i hia
        have h3 := probe_body_prev_ne env is_initial st a i hia
        exact ⟨h1.1.trans h2, h1.2.1.trans h3.1, h1.2.2.trans h3.2⟩

/-- C9: `create_contact_graph` leaves every body's positional and velocity
state as it was at entry (each probed body is saved before its tentative
integration and restored from that save afterwards), but for every movable
body `i` it overwrites the caller's `prev_pos`/`prev_vel` slots `i` with
body `i`'s state at the time of the call — the snapshot the caller stored
there does not survive the call; immovable bodies' slots are untouched. -/
theorem C9_state_kept_buffers_overwritten {α β γ Q : Type} [Zero Q] [DecidableEq Q]
    (env : CGEnv α β γ Q) {n : ℕ} (is_initial : Bool) (st : CGState α β γ Q n) :
    (∀ j, ((create_contact_graph env is_initial st).bodies j).x = (st.bodies j).x
        ∧ ((create_contact_graph env is_initial st).bodies j).v = (st.bodies j).v)
    ∧ (∀ i, (st.bodies i).inv_mass ≠ 0 →
        (create_contact_graph env is_initial st).prev_pos i = (st.bodies i).x
        ∧ (create_contact_graph env is_initial st).prev_vel i = (st.bodies i).v)
    ∧ (∀ i, (st.bodies i).inv_mass = 0 →
        (create_contact_graph env is_initial st).prev_pos i = st.prev_pos i
        ∧ (create_contact_graph env is_initial st).prev_vel i = st.prev_vel i) := by
  have hccg : create_contact_graph env is_initial st
      = ccg_fold env is_initial
          { st with bodies := fun j => { st.bodies j with in_contact_list := [] } }
          (List.finRange n) := rfl
  refine ⟨fun j => ?_, fun i hm => ?_, fun i hm => ?_⟩
  · have h := ccg_fold_core env is_initial (List.finRange n)
      { st with bodies := fun j => { st.bodies j with in_contact_list := [] } } j
    rw [hccg]
    exact ⟨h.1, h.2.1⟩
  · have h := ccg_fold_prev_movable env is_initial (List.finRange n)
      (List.nodup_finRange n)
      { st with bodies := fun j => { st.bodies j with in_contact_list := [] } }
      i (List.mem_finRange i) hm
    rw [hccg]
    exact h
  · have h := ccg_fold_fixed env is_initial (List.finRange n)
      { st with bodies := fun j => { st.bodies j with in_contact_list := [] } } i hm
    rw [hccg]
    exact ⟨h.2.1, h.2.2⟩

/-- C6: after `create_contact_graph`, every body with `inv_mass = 0` has an
empty contact list — all lists are cleared at the start of the call and
contacts are appended only under the `inv_mass != 0` guard. -/
theorem C6_fixed_body_no_contacts {α β γ Q : Type} [Zero Q] [DecidableEq Q]
    (env : CGEnv α β γ Q) {n : ℕ} (is_initial : Bool) (st : CGState α β γ Q n) (i : Fin n)
    (h : (st.bodies i).inv_mass = 0) :
    ((create_contact_graph env is_initial st).bodies i).in_contact_list = [] := by
  have hccg : create_contact_graph env is_initial st
      = ccg_fold env is_initial
          { st with bodies := fun j => { st.bodies j with in_contact_list := [] } }
          (List.finRange n) := rfl
  have h0 : ((({ st with
      bodies := fun j => { st.bodies j with in_contact_list := [] } } :
        CGState α β γ Q n)).bodies i).inv_mass = 0 := h
  rw [hccg, (ccg_fold_fixed env is_initial (List.finRange n) _ i h0).1]

/-- C3 (amended): for every movable body `i`, `create_contact_graph` first
saves body `i`'s CURRENT state into the `prev_pos`/`prev_vel` slots
(overwriting the pre-tick snapshot), then integrates body `i` alone from
that current state (with gravity only when `is_initial`) and probes it
against every other body, and finally restores body `i` from the just-saved
slots; so the contacts recorded for body `i` are exactly those of a probe
from its state at the time of the call — not from the pre-tick snapshot. -/
theorem C3_probe_from_current_state {α β γ Q : Type} [Zero Q] [DecidableEq Q]
    (env : CGEnv α β γ Q) {n : ℕ} (is_initial : Bool) (st : CGState α β γ Q n) (i : Fin n)
    (h : (st.bodies i).inv_mass ≠ 0) :
    ((create_contact_graph env is_initial st).bodies i).in_contact_list
      = probe_contacts env is_initial st.bodies i := by
  have hccg : create_contact_graph env is_initial st
      = ccg_fold env is_initial
          { st with bodies := fun j => { st.bodies j with in_contact_list := [] } }
          (List.finRange n) := rfl
  have h0 : ((({ st with
      bodies := fun j => { st.bodies j with in_contact_list := [] } } :
        CGState α β γ Q n)).bodies i).inv_mass ≠ 0 := h
  rw [hccg, ccg_fold_contacts env is_initial (List.finRange n) (List.nodup_finRange n)
    _ i (List.mem_finRange i) h0]
  show [] ++ _ = _
  rw [List.nil_append]
  apply probe_contacts_congr <;> intro k <;> rfl

/-- Modelled from the spec (section 4.6 steps 1-4, the reading asserted by
claim C3) in place of the source's `probe_body`: body `i` is first RESTORED
to the pre-tick snapshot held in the caller's `prev_pos`/`prev_vel` slots,
then integrated alone and probed, and afterwards all state is restored
(body `i` back to its entry state); the buffers are left unchanged. -/
def probe_body_spec {α β γ Q : Type} [Zero Q] [DecidableEq Q] (env : CGEnv α β γ Q) {n : ℕ}
    (is_initial : Bool) (st : CGState α β γ Q n) (i : Fin n) : CGState α β γ Q n :=
  let b := st.bodies i
  if b.inv_mass ≠ 0 then
    let bR : RBody α β γ Q n := { b with x := st.prev_pos i, v := st.prev_vel i }
    let bodies1 := Function.update st.bodies i (advance env is_initial bR)
    let cs := contact_scan env bodies1 i
    let bodies2 := Function.update bodies1 i
      { bodies1 i with in_contact_list := (bodies1 i).in_contact_list ++ cs }
    let bodies3 := Function.update bodies2 i { bodies2 i with x := b.x, v := b.v }
    { st with bodies := bodies3 }
  else st

/-- Modelled from the spec: `create_contact_graph` as claim C3 describes it,
probing each movable body from the pre-tick snapshot. -/
def create_contact_graph_spec {α β γ Q : Type} [Zero Q] [DecidableEq Q]
    (env : CGEnv α β γ Q) {n : ℕ} (is_initial : Bool) (st : CGState α β γ Q n) :
    CGState α β γ Q n :=
  let st0 : CGState α β γ Q n :=
    { st with bodies := fun j => { st.bodies j with in_contact_list := [] } }
  (List.finRange n).foldl (probe_body_spec env is_initial) st0

/-- Concrete instance separating the source's probe from the claimed one:
the pose integrate is the identity, body `1` currently sits at `x = 5` while
its pre-tick snapshot slot holds `x = 0`, and the intersection test fires
exactly at pose `0`. -/
def envC3 : CGEnv ℤ ℤ Unit ℤ where
  integrate_vel := fun _ v _ => v
  integrate_pos := fun x _ _ => x
  intersection_test := fun _ xi => if xi = 0 then some ((), ()) else none

/-- The two-body state for the C3 counterexample: body `0` is the immovable
floor, body `1` is movable at `x = 5`, and the pre-tick snapshot in the
buffers holds `x = 0`. -/
def stC3 : CGState ℤ ℤ Unit ℤ 2 where
  bodies := ![⟨1, 0, 0, []⟩, ⟨5, 0, 1, []⟩]
  prev_pos := ![0, 0]
  prev_vel := ![0, 0]

/-- C3 counterexample: at the concrete instance, `create_contact_graph`
(which probes body `1` from its current state, finding nothing at pose `5`)
disagrees with the spec-modelled variant that first restores body `1` to the
pre-tick snapshot (which finds a contact at pose `0`): the claimed restore
does not happen in the code. -/
theorem C3_counterexample :
    ((create_contact_graph envC3 true stC3).bodies 1).in_contact_list
      ≠ ((create_contact_graph_spec envC3 true stC3).bodies 1).in_contact_list := by
  decide

/-- Witness for C3 (amended) at the concrete instance `envC3`/`stC3`. -/
theorem C3_probe_from_current_state_witness :
    ((create_contact_graph envC3 true stC3).bodies 1).in_contact_list
      = probe_contacts envC3 true stC3.bodies 1 :=
  C3_probe_from_current_state envC3 true stC3 1 (by decide)

/-- Witness for C6 at the concrete instance: the immovable body `0` ends
with an empty contact list. -/
theorem C6_fixed_body_no_contacts_witness :
    ((create_contact_graph envC3 true stC3).bodies 0).in_contact_list = [] :=
  C6_fixed_body_no_contacts envC3 true stC3 0 (by decide)

/-- Witness for C9 at the concrete instance: the movable body `1`'s buffer
slots are overwritten with its call-time state. -/
theorem C9_state_kept_buffers_overwritten_witness :
    (create_contact_graph envC3 true stC3).prev_pos 1 = (stC3.bodies 1).x
    ∧ (create_contact_graph envC3 true stC3).prev_vel 1 = (stC3.bodies 1).v :=
  (C9_state_kept_buffers_overwritten envC3 true stC3).2.1 1 (by decide)

end RigidBodies
